import Mathlib

/-!
Verification of the document-summarizer application (`app.py`).

The pipeline logic of the source file is shallowly embedded here:
pure Python functions become Lean functions, external collaborators
(the LLM completion chain, the text splitter, the PDF parser, the
transcript fetchers) become function or `Except` parameters, and the
embedding additionally returns a trace of the external calls made so
that call-count claims can be stated.  Python string primitives
(`split`, `in`, slicing) are modelled on `List Char`.
-/

/-- A metadata value as stored in a langchain `Document` (string or bool). -/
inductive MetaValue where
  | str (s : String)
  | bool (b : Bool)
deriving DecidableEq, Repr

/-- `langchain_core.documents.Document`: `page_content` plus metadata.
Constructing `Document(page_content=t)` in Python leaves metadata empty. -/
structure Document where
  page_content : String
  metadata : List (String × MetaValue) := []
deriving DecidableEq, Repr

/-- `summarize_documents(documents, llm)` from `app.py`.

The external collaborators are parameters: `split_documents` stands for
`text_splitter.split_documents` (the `CharacterTextSplitter` configured
with `chunk_size=4000, chunk_overlap=200, separator="\n"`), and `invoke`
stands for `chain.invoke({"input_documents": docs})["output_text"]`.

Returns the summary string together with the trace of the pipeline:
the list of inputs passed to `invoke`, in call order, and the number of
times `split_documents` was invoked.  Mirrors the source:
if exactly one document whose `page_content` exceeds 4000 characters,
split it; if that yields more than one chunk, summarize each chunk and
then summarize the list of intermediate summaries; in every other case
make a single call on the full document list. -/
def summarize_documents (split_documents : List Document → List Document)
    (invoke : List Document → String) (documents : List Document) :
    String × List (List Document) × Nat :=
  match documents with
  | [d] =>
    if 4000 < d.page_content.length then
      let split_docs := split_documents [d]
      if 1 < split_docs.length then
        let summaries := split_docs.map (fun doc => Document.mk (invoke [doc]) [])
        (invoke summaries, split_docs.map (fun doc => [doc]) ++ [summaries], 1)
      else
        (invoke [d], [[d]], 1)
    else
      (invoke [d], [[d]], 0)
  | _ => (invoke documents, [documents], 0)

/-- Locate the first occurrence of `sep` in `l`: returns
`some (pre, post)` where `l = pre ++ sep ++ post` and `pre` holds no
earlier occurrence, or `none` when `sep` does not occur.  This is the
scanning step underlying Python's `str.split(sep)`. -/
def splitFirst (sep : List Char) : List Char → Option (List Char × List Char)
  | [] => if sep.isEmpty then some ([], []) else none
  | c :: rest =>
    if sep.isPrefixOf (c :: rest) ∧ ¬ sep.isEmpty then
      some ([], (c :: rest).drop sep.length)
    else
      match splitFirst sep rest with
      | none => none
      | some (pre, post) => some (c :: pre, post)

/-- Python's `l.split(sep)[0]`: the part of `l` before the first
occurrence of `sep`, or all of `l` when `sep` does not occur. -/
def py_split_head (sep l : List Char) : List Char :=
  match splitFirst sep l with
  | none => l
  | some (pre, _) => pre

/-- Python's `l.split(sep)[1]` for inputs known to contain `sep`:
the part after the first occurrence of `sep`, up to the next occurrence
(`[]` when `sep` does not occur at all, a case the source guards out
with an `in` test before indexing). -/
def py_split_second (sep l : List Char) : List Char :=
  match splitFirst sep l with
  | none => []
  | some (_, post) => py_split_head sep post

/-- Python's full `l.split(sep)` for a non-empty separator, with the
input length as (always sufficient) recursion fuel. -/
def pySplitFuel (sep : List Char) : Nat → List Char → List (List Char)
  | 0, l => [l]
  | fuel + 1, l =>
    match splitFirst sep l with
    | none => [l]
    | some (pre, post) => pre :: pySplitFuel sep fuel post

/-- Python's `l.split(sep)` (non-empty `sep`). -/
def py_split_all (sep l : List Char) : List (List Char) :=
  pySplitFuel sep l.length l

/-- Python's `sub in s` substring test. -/
def pyContains (sub : List Char) : List Char → Bool
  | [] => sub.isEmpty
  | c :: rest => sub.isPrefixOf (c :: rest) || pyContains sub rest

/-- `extract_video_id(youtube_url)` from `app.py`:
`if "youtu.be/" in url: return url.split("youtu.be/")[1].split("?")[0]`,
`elif "watch?v=" in url: return url.split("watch?v=")[1].split("&")[0]`,
else `None`. -/
def extract_video_id (youtube_url : String) : Option String :=
  if pyContains "youtu.be/".data youtube_url.data then
    some (String.mk (py_split_head "?".data
      (py_split_second "youtu.be/".data youtube_url.data)))
  else if pyContains "watch?v=".data youtube_url.data then
    some (String.mk (py_split_head "&".data
      (py_split_second "watch?v=".data youtube_url.data)))
  else
    none

/-- `load_pdf_documents(uploaded_file)` from `app.py`, with the PDF
parser's outcome (`PyPDFLoader(tmp_file_path).load()`) as an `Except`
parameter.  The source writes the upload to a
`tempfile.NamedTemporaryFile(delete=False)`, parses it, calls
`os.unlink` on the path, and returns the documents; any exception is
caught (`st.error`) and `None` is returned — `os.unlink` is reached
only after a successful parse.  The boolean in the result records
whether the temporary file has been unlinked when the function
returns. -/
def load_pdf_documents (load : Except String (List Document)) :
    Option (List Document) × Bool :=
  match load with
  | Except.ok documents => (some documents, true)
  | Except.error _ => (none, false)

/-- A fetched caption transcript, as consumed by the YouTube loader:
the snippet texts plus the attributes the source reads off it. -/
structure FetchedTranscript where
  snippets : List String
  language : String
  language_code : String
  is_generated : Bool
deriving DecidableEq, Repr

/-- The diagnostic shown when both transcript strategies fail: the
textual core of the markdown block in `load_youtube_documents`
(`Primary: {str(e)[:100]}... | Fallback: {str(fallback_error)[:100]}...`,
HTML wrapper and bullet list elided). -/
def noCaptionsMessage (e fallback_error : String) : String :=
  "Could not fetch YouTube transcript Primary: " ++ e.take 100 ++
    "... | Fallback: " ++ fallback_error.take 100 ++ "..."

/-- `load_youtube_documents(youtube_url)` from `app.py`, with the two
external transcript strategies as `Except` parameters: `fetch` is
`YouTubeTranscriptApi().fetch(video_id)` and `fallback` is
`YoutubeLoader.from_youtube_url(...).load()`.  Returns the documents
(or `None`) paired with the error message displayed, if any.  The
source's `if not video_id:` guard is falsy on Python's `None` and on
the empty string alike, so both are rejected as an invalid URL before
any fetch is attempted.  The `YOUTUBE_AVAILABLE` import guard is
elided (the claims concern the loading logic itself). -/
def load_youtube_documents (youtube_url : String)
    (fetch : Except String FetchedTranscript)
    (fallback : Except String (List Document)) :
    Option (List Document) × Option String :=
  match extract_video_id youtube_url with
  | none => (none, some "Invalid YouTube URL format")
  | some video_id =>
    if video_id = "" then (none, some "Invalid YouTube URL format")
    else
    match fetch with
    | Except.ok t =>
      (some [{ page_content := String.intercalate " " t.snippets,
               metadata := [("source", MetaValue.str youtube_url),
                            ("video_id", MetaValue.str video_id),
                            ("language", MetaValue.str t.language),
                            ("language_code", MetaValue.str t.language_code),
                            ("is_generated", MetaValue.bool t.is_generated)] }],
       none)
    | Except.error e =>
      match fallback with
      | Except.ok documents => (some documents, none)
      | Except.error fallback_error =>
        (none, some (noCaptionsMessage e fallback_error))

/-- A catalog entry of `GROQ_MODELS` in `app.py`. -/
structure ModelConfig where
  id : String
  context : String
  description : String
  category : String
  speed : String
  cost : String
deriving DecidableEq, Repr

/-- The `GROQ_MODELS` catalog of `app.py`, key order preserved. -/
def GROQ_MODELS : List (String × ModelConfig) :=
  [("🚀 Llama 3.1 8B (Fast)",
    ⟨"llama-3.1-8b-instant", "131K",
     "Fast and efficient, great for quick summaries", "production",
     "⚡ Ultra-fast", "💰 Low"⟩),
   ("🧠 Llama 3.3 70B (Smart)",
    ⟨"llama-3.3-70b-versatile", "131K",
     "Larger model for better quality and reasoning", "production",
     "⚡ Fast", "💰 Medium"⟩),
   ("🔥 GPT-OSS 120B (Premium)",
    ⟨"openai/gpt-oss-120b", "131K",
     "OpenAI's flagship open model with reasoning", "production",
     "⚡ Fast", "💰 High"⟩),
   ("⭐ GPT-OSS 20B (Balanced)",
    ⟨"openai/gpt-oss-20b", "131K",
     "Balanced performance and efficiency", "production",
     "⚡ Very Fast", "💰 Medium"⟩),
   ("🔬 Llama 4 Maverick 17B",
    ⟨"meta-llama/llama-4-maverick-17b-128e-instruct", "131K",
     "Experimental Llama 4 preview model", "preview",
     "⚡ Fast", "💰 Medium"⟩),
   ("🛡️ Llama 4 Scout 17B",
    ⟨"meta-llama/llama-4-scout-17b-16e-instruct", "131K",
     "Advanced reasoning and analysis", "preview",
     "⚡ Fast", "💰 Medium"⟩),
   ("🌙 Kimi K2 Instruct",
    ⟨"moonshotai/kimi-k2-instruct-0905", "262K",
     "Ultra-long context window for large documents", "preview",
     "⚡ Medium", "💰 High"⟩),
   ("🤖 Qwen3 32B",
    ⟨"qwen/qwen3-32b", "131K",
     "Alibaba's advanced multilingual model", "preview",
     "⚡ Fast", "💰 Medium"⟩)]

/-- The constructor arguments of `ChatGroq(...)` in `get_llm`. -/
structure ChatGroqConfig where
  temperature : Nat
  model : String
  max_tokens : Option Nat
  timeout : Option Nat
  max_retries : Nat
deriving DecidableEq, Repr

/-- `get_llm()` from `app.py`: looks up the selected model in
`GROQ_MODELS` and builds
`ChatGroq(temperature=0, model=id, max_tokens=None, timeout=None,
max_retries=2)`.  The dictionary lookup is modelled with `Option`
(Python would raise `KeyError` on a key outside the catalog; the UI
only offers catalog keys). -/
def get_llm (selected_model : String) : Option ChatGroqConfig :=
  match GROQ_MODELS.lookup selected_model with
  | some model_config =>
    some { temperature := 0, model := model_config.id, max_tokens := none,
           timeout := none, max_retries := 2 }
  | none => none

/-- Python's `str.isspace` on the characters `str.split()` (no
argument) splits on. -/
def pyIsSpace (c : Char) : Bool :=
  c == ' ' || c == '\t' || c == '\n' || c == '\r' ||
    c == Char.ofNat 11 || c == Char.ofNat 12

/-- Accumulator pass for Python's `str.split()` (split on whitespace
runs, no empty segments); `cur` holds the current word reversed. -/
def pySplitWsAux : List Char → List Char → List (List Char)
  | cur, [] => if cur.isEmpty then [] else [cur.reverse]
  | cur, c :: rest =>
    if pyIsSpace c then
      if cur.isEmpty then pySplitWsAux [] rest
      else cur.reverse :: pySplitWsAux [] rest
    else pySplitWsAux (c :: cur) rest

/-- Python's `l.split()` (whitespace split, empty segments dropped). -/
def pySplitWs (l : List Char) : List (List Char) := pySplitWsAux [] l

/-- Python's `str.strip()`: whitespace removed from both ends. -/
def pyStrip (l : List Char) : List Char :=
  ((l.dropWhile pyIsSpace).reverse.dropWhile pyIsSpace).reverse

/-- `word_count = len(summary.split())` from the analytics tab of
`app.py`. -/
def word_count (s : String) : Nat := (pySplitWs s.data).length

/-- `char_count = len(summary)` from the analytics tab. -/
def char_count (s : String) : Nat := s.length

/-- `reading_time = max(1, word_count // 200)` from the analytics
tab. -/
def reading_time (s : String) : Nat := max 1 (word_count s / 200)

/-- `sentences = s.count('.') + s.count('!') + s.count('?')` from the
analytics tab. -/
def sentences (s : String) : Nat :=
  s.data.count '.' + s.data.count '!' + s.data.count '?'

/-- `paragraphs = len([p for p in s.split('\n') if p.strip()])` from
the analytics tab. -/
def paragraphs (s : String) : Nat :=
  ((py_split_all "\n".data s.data).filter
    (fun p => !(pyStrip p).isEmpty)).length

/-- The analytics derived from a summary text in `app.py`'s results
view. -/
structure Analytics where
  word_count : Nat
  char_count : Nat
  reading_time : Nat
  sentences : Nat
  paragraphs : Nat
deriving DecidableEq, Repr

/-- All five analytics of a summary text, computed together. -/
def analytics (s : String) : Analytics :=
  ⟨word_count s, char_count s, reading_time s, sentences s, paragraphs s⟩

/-- Modelled from the spec: the Chunker itself is langchain's
`CharacterTextSplitter`, a third-party library whose code is not part
of this repository; only its configuration
(`chunk_size=4000, chunk_overlap=200, separator="\n"`) appears in
`app.py`.  Following §4.2 of the spec, a window boundary is placed
after the last newline within `maxSize` characters; when the remaining
text holds no newline within `maxSize` characters (the
unsplittable-unit edge case) the window extends to the first newline
anywhere, or to the end of the text, and may be oversized.  `chunkCut`
returns the length of the next window. -/
def chunkCut (maxSize : Nat) (l : List Char) : Nat :=
  if l.length ≤ maxSize then l.length
  else
    match (l.take maxSize).reverse.findIdx? (fun c => c == '\n') with
    | some i => maxSize - i
    | none =>
      match l.findIdx? (fun c => c == '\n') with
      | some q => q + 1
      | none => l.length

/-- Modelled from the spec: the Chunker's window sequence.  Each
window is the next `chunkCut` characters; the following window starts
`overlap` characters before the previous one ended, so consecutive
windows overlap by exactly `overlap` characters (§4.2).  The final
window, and any window for which no progress past the overlap is
possible, is the whole remaining text.  Fuel (the text length, always
sufficient) keeps the recursion structural. -/
def chunkListFuel (maxSize overlap : Nat) : Nat → List Char → List (List Char)
  | 0, l => [l]
  | fuel + 1, l =>
    let cut := chunkCut maxSize l
    if cut < l.length ∧ overlap < cut then
      l.take cut :: chunkListFuel maxSize overlap fuel (l.drop (cut - overlap))
    else [l]

/-- Modelled from the spec: the Chunker applied to a text. -/
def chunkList (maxSize overlap : Nat) (l : List Char) : List (List Char) :=
  chunkListFuel maxSize overlap l.length l

/-- Concatenate all windows, removing each duplicated overlap region
(the first `overlap` characters of every window after the first). -/
def reassemble (overlap : Nat) : List (List Char) → List Char
  | [] => []
  | w :: ws => w ++ (ws.map (fun x => x.drop overlap)).flatten

/-- The completion stub of the spec's test scenario: echoes
`"summary:" + input`. -/
def stubComplete (ds : List Document) : String :=
  "summary:" ++ String.intercalate " " (ds.map (fun doc => doc.page_content))

/-- A concrete 9000-character document. -/
def bigDoc : Document := ⟨String.mk (List.replicate 9000 'a'), []⟩

/-- First chunk produced by the concrete splitter stub. -/
def chunkA : Document := ⟨String.mk (List.replicate 4600 'a'), []⟩

/-- Second chunk produced by the concrete splitter stub. -/
def chunkB : Document := ⟨String.mk (List.replicate 4600 'b'), []⟩

/-- A concrete splitter returning two chunks. -/
def stubSplit (_ : List Document) : List Document := [chunkA, chunkB]

/-- Three concrete short documents (each far below 4000 characters). -/
def docA : Document := ⟨"alpha document", []⟩

/-- Second short document. -/
def docB : Document := ⟨"beta document", []⟩

/-- Third short document. -/
def docC : Document := ⟨"gamma document", []⟩

/-- C1: for a single input document of 9000 characters whose chunking
yields exactly 2 chunks, the pipeline performs exactly 3 completion
calls: one on each chunk (front-to-back) and a final one whose input is
exactly the two intermediate summaries, in original chunk order.  The
trace of call inputs is `[[c0], [c1], [summary c0, summary c1]]` and the
result is the final call's output. -/
theorem summarize_three_calls (split_documents : List Document → List Document)
    (invoke : List Document → String) (d c0 c1 : Document)
    (hlen : d.page_content.length = 9000)
    (hsplit : split_documents [d] = [c0, c1]) :
    summarize_documents split_documents invoke [d] =
      (invoke [Document.mk (invoke [c0]) [], Document.mk (invoke [c1]) []],
       [[c0], [c1], [Document.mk (invoke [c0]) [], Document.mk (invoke [c1]) []]],
       1) := by
  simp [summarize_documents, hsplit, hlen]

/-- Witness for C1 at a concrete 9000-character document and a concrete
two-chunk splitter. -/
theorem summarize_three_calls_witness :
    summarize_documents stubSplit stubComplete [bigDoc] =
      (stubComplete [Document.mk (stubComplete [chunkA]) [],
                     Document.mk (stubComplete [chunkB]) []],
       [[chunkA], [chunkB],
        [Document.mk (stubComplete [chunkA]) [],
         Document.mk (stubComplete [chunkB]) []]],
       1) :=
  summarize_three_calls stubSplit stubComplete bigDoc chunkA chunkB
    (by show (List.replicate 9000 'a').length = 9000; rw [List.length_replicate]) rfl

/-- C2: for every input of more than one document, regardless of any
document's length, the pipeline makes exactly one completion call, on
the full document list, and never invokes the splitter. -/
theorem summarize_multi_single_call (split_documents : List Document → List Document)
    (invoke : List Document → String) (documents : List Document)
    (h : 2 ≤ documents.length) :
    summarize_documents split_documents invoke documents =
      (invoke documents, [documents], 0) := by
  match documents with
  | [] => simp at h
  | [d] => simp at h
  | a :: b :: rest => rfl

/-- Witness for C2 at three concrete short documents: one call with all
three as combined input, zero splitter invocations. -/
theorem summarize_multi_single_call_witness :
    summarize_documents stubSplit stubComplete [docA, docB, docC] =
      (stubComplete [docA, docB, docC], [[docA, docB, docC]], 0) :=
  summarize_multi_single_call stubSplit stubComplete [docA, docB, docC] (by decide)

/-- Counterexample to C3 as stated: in the short form the source
terminates the identifier only at `?`, not at `&`; on
`https://youtu.be/AB&CD` the claim predicts identifier `AB`
(terminating at the next `&`), but the code yields `AB&CD`. -/
theorem extract_video_id_amp_refutes :
    extract_video_id "https://youtu.be/AB&CD" = some "AB&CD" ∧
      some ("AB&CD" : String) ≠ some ("AB" : String) := by
  exact ⟨by decide, by decide⟩

/-- C3 (amended): extraction recognizes exactly the two substring
shapes; for the short form the identifier runs from after `youtu.be/`
to the next `?` only (a `&` does not terminate it), for the watch form
from after `watch?v=` to the next `&` only (a `?` does not terminate
it); a URL containing neither substring yields no identifier. -/
theorem extract_video_id_shapes :
    extract_video_id "https://youtu.be/ABC123?t=5" = some "ABC123" ∧
    extract_video_id "https://youtube.com/watch?v=XYZ789&list=PL123" = some "XYZ789" ∧
    extract_video_id "https://example.com/video" = none ∧
    extract_video_id "https://youtu.be/AB&CD?t=1" = some "AB&CD" ∧
    extract_video_id "https://youtube.com/watch?v=XY?Z&w=2" = some "XY?Z" := by
  refine ⟨by decide, by decide, by decide, by decide, by decide⟩

/-- `isPrefixOf` agrees with the existence of a completing suffix. -/
theorem isPrefixOf_iff_append :
    ∀ (l₁ l₂ : List Char), l₁.isPrefixOf l₂ = true ↔ ∃ t, l₂ = l₁ ++ t := by
  intro l₁
  induction l₁ with
  | nil => intro l₂; simp [List.isPrefixOf]
  | cons a l ih =>
    intro l₂
    cases l₂ with
    | nil => simp [List.isPrefixOf]
    | cons b m =>
      simp only [List.isPrefixOf, Bool.and_eq_true, beq_iff_eq, ih m, List.cons_append]
      constructor
      · rintro ⟨rfl, t, rfl⟩; exact ⟨t, rfl⟩
      · rintro ⟨t, ht⟩
        obtain ⟨rfl, rfl⟩ : a = b ∧ m = l ++ t := by
          have h1 := congrArg (fun x => x.headI) ht
          have h2 := congrArg (fun x => x.tail) ht
          simp at h1 h2
          exact ⟨h1.symm, h2⟩
        exact ⟨rfl, t, rfl⟩

/-- Python's `in` agrees with substring containment. -/
theorem pyContains_iff (sub : List Char) :
    ∀ (l : List Char), pyContains sub l = true ↔ ∃ pre post, l = pre ++ sub ++ post := by
  intro l
  induction l with
  | nil =>
    simp only [pyContains, List.isEmpty_iff]
    constructor
    · rintro rfl; exact ⟨[], [], rfl⟩
    · rintro ⟨pre, post, h⟩
      rcases List.append_eq_nil.mp h.symm with ⟨h1, h2⟩
      exact (List.append_eq_nil.mp h1).2
  | cons c rest ih =>
    simp only [pyContains, Bool.or_eq_true, isPrefixOf_iff_append, ih]
    constructor
    · rintro (⟨t, ht⟩ | ⟨pre, post, hp⟩)
      · exact ⟨[], t, by simpa using ht⟩
      · exact ⟨c :: pre, post, by simp [hp]⟩
    · rintro ⟨pre, post, hp⟩
      cases pre with
      | nil => exact Or.inl ⟨post, by simpa using hp⟩
      | cons p ps =>
        right
        refine ⟨ps, post, ?_⟩
        simpa using congrArg (fun x => x.tail) hp

/-- C9: video-identifier extraction is total and returns `none`
exactly when the URL contains neither the substring `youtu.be/` nor the
substring `watch?v=`; when both substrings occur, the short-form rule
is the one applied. -/
theorem extract_video_id_none_iff (url : String) :
    (extract_video_id url = none ↔
      (¬ ∃ pre post, url.data = pre ++ "youtu.be/".data ++ post) ∧
      (¬ ∃ pre post, url.data = pre ++ "watch?v=".data ++ post)) ∧
    ((∃ pre post, url.data = pre ++ "youtu.be/".data ++ post) →
     (∃ pre post, url.data = pre ++ "watch?v=".data ++ post) →
      extract_video_id url =
        some (String.mk (py_split_head "?".data
          (py_split_second "youtu.be/".data url.data)))) := by
  have h1 := pyContains_iff "youtu.be/".data url.data
  have h2 := pyContains_iff "watch?v=".data url.data
  constructor
  · rw [← h1, ← h2]
    cases hc1 : pyContains "youtu.be/".data url.data <;>
      cases hc2 : pyContains "watch?v=".data url.data <;>
        simp [extract_video_id, hc1, hc2]
  · intro ha hb
    have : pyContains "youtu.be/".data url.data = true := h1.mpr ha
    simp [extract_video_id, this]

/-- Witness for C9 at a URL holding both substrings: the short form
wins. -/
theorem extract_video_id_none_iff_witness :
    extract_video_id "https://youtu.be/idwatch?v=zz" =
      some (String.mk (py_split_head "?".data
        (py_split_second "youtu.be/".data
          ("https://youtu.be/idwatch?v=zz" : String).data))) :=
  (extract_video_id_none_iff "https://youtu.be/idwatch?v=zz").2
    ⟨"https://".data, "idwatch?v=zz".data, by decide⟩
    ⟨"https://youtu.be/id".data, "zz".data, by decide⟩

/-- C4: the code at the failing input.  When the parser raises, the
function returns `None` with the temporary file still on disk
(`os.unlink` sits only on the success path), while on a successful
parse the file is unlinked.  This contradicts the claimed
delete-on-every-exit-path guarantee. -/
theorem load_pdf_tmp_not_deleted_on_error :
    load_pdf_documents (Except.error "malformed PDF") = (none, false) ∧
    (∀ documents, load_pdf_documents (Except.ok documents) = (some documents, true)) :=
  ⟨rfl, fun _ => rfl⟩

/-- C5: when the primary transcript fetch and the fallback strategy
both fail on a URL with a recognized, non-empty video identifier (an
empty extraction is falsy in Python and is rejected as an invalid URL
before any fetch), the loader returns no documents and reports a
diagnostic that contains both underlying failure messages, each
truncated to 100 characters. -/
theorem load_youtube_both_fail (url vid e fe : String)
    (h : extract_video_id url = some vid) (hvid : vid ≠ "") :
    load_youtube_documents url (Except.error e) (Except.error fe) =
      (none, some (noCaptionsMessage e fe)) ∧
    (∃ pre post, (noCaptionsMessage e fe).data = pre ++ (e.take 100).data ++ post) ∧
    (∃ pre post, (noCaptionsMessage e fe).data = pre ++ (fe.take 100).data ++ post) := by
  refine ⟨by simp [load_youtube_documents, h, hvid], ?_, ?_⟩
  · refine ⟨("Could not fetch YouTube transcript Primary: " : String).data,
      ("... | Fallback: " ++ fe.take 100 ++ "..." : String).data, ?_⟩
    simp [noCaptionsMessage, String.data_append, List.append_assoc]
  · refine ⟨("Could not fetch YouTube transcript Primary: " ++ e.take 100 ++
      "... | Fallback: " : String).data, ("..." : String).data, ?_⟩
    simp [noCaptionsMessage, String.data_append, List.append_assoc]

/-- Witness for C5 at a concrete URL and concrete failure messages. -/
theorem load_youtube_both_fail_witness :
    load_youtube_documents "https://youtu.be/abc"
        (Except.error "no captions") (Except.error "blocked") =
      (none, some (noCaptionsMessage "no captions" "blocked")) ∧
    (∃ pre post, (noCaptionsMessage "no captions" "blocked").data =
      pre ++ (("no captions" : String).take 100).data ++ post) ∧
    (∃ pre post, (noCaptionsMessage "no captions" "blocked").data =
      pre ++ (("blocked" : String).take 100).data ++ post) :=
  load_youtube_both_fail "https://youtu.be/abc" "abc" "no captions" "blocked"
    (by decide) (by decide)

/-- C6: every completion-call configuration the app can build — for
any selectable model — has temperature 0, no max-token cap, and a
retry budget of exactly 2. -/
theorem get_llm_config (sel : String) (cfg : ChatGroqConfig)
    (h : get_llm sel = some cfg) :
    cfg.temperature = 0 ∧ cfg.max_tokens = none ∧ cfg.max_retries = 2 := by
  unfold get_llm at h
  cases hl : GROQ_MODELS.lookup sel with
  | none => rw [hl] at h; cases h
  | some mc => rw [hl] at h; cases h; exact ⟨rfl, rfl, rfl⟩

/-- Witness for C6 at the first catalog model. -/
theorem get_llm_config_witness :
    (ChatGroqConfig.mk 0 "llama-3.1-8b-instant" none none 2).temperature = 0 ∧
    (ChatGroqConfig.mk 0 "llama-3.1-8b-instant" none none 2).max_tokens = none ∧
    (ChatGroqConfig.mk 0 "llama-3.1-8b-instant" none none 2).max_retries = 2 :=
  get_llm_config "🚀 Llama 3.1 8B (Fast)"
    (ChatGroqConfig.mk 0 "llama-3.1-8b-instant" none none 2) (by decide)

/-- Round trip of the modelled Chunker at any fuel at least the text
length, together with the head-window bound used in the induction:
the first window is the whole remainder or longer than the overlap. -/
theorem chunkListFuel_roundtrip (ms ov : Nat) :
    ∀ (fuel : Nat) (l : List Char), l.length ≤ fuel →
      reassemble ov (chunkListFuel ms ov fuel l) = l ∧
      (∀ w ws, chunkListFuel ms ov fuel l = w :: ws → w = l ∨ ov < w.length) := by
  intro fuel
  induction fuel with
  | zero =>
    intro l _
    refine ⟨by simp [chunkListFuel, reassemble], ?_⟩
    intro w ws h
    simp [chunkListFuel] at h
    exact Or.inl h.1.symm
  | succ fuel ih =>
    intro l hl
    by_cases hc : chunkCut ms l < l.length ∧ ov < chunkCut ms l
    · have hstep : chunkListFuel ms ov (fuel + 1) l =
          l.take (chunkCut ms l) ::
            chunkListFuel ms ov fuel (l.drop (chunkCut ms l - ov)) := by
        simp only [chunkListFuel]
        rw [if_pos hc]
      obtain ⟨h1, h2⟩ := hc
      have hlen' : (l.drop (chunkCut ms l - ov)).length ≤ fuel := by
        simp only [List.length_drop]
        omega
      have hov : ov < (l.drop (chunkCut ms l - ov)).length := by
        simp only [List.length_drop]
        omega
      obtain ⟨ihr, ihh⟩ := ih (l.drop (chunkCut ms l - ov)) hlen'
      obtain ⟨w', ws', hws⟩ :
          ∃ w' ws', chunkListFuel ms ov fuel (l.drop (chunkCut ms l - ov)) = w' :: ws' := by
        cases hfl : chunkListFuel ms ov fuel (l.drop (chunkCut ms l - ov)) with
        | nil =>
          exfalso
          rw [hfl] at ihr
          simp [reassemble] at ihr
          omega
        | cons w' ws' => exact ⟨w', ws', rfl⟩
      have hw'len : ov ≤ w'.length := by
        rcases ihh w' ws' hws with h | h
        · rw [h]; exact le_of_lt hov
        · exact le_of_lt h
      have hl' : w' ++ (ws'.map (fun x => x.drop ov)).flatten =
          l.drop (chunkCut ms l - ov) := by
        rw [← ihr, hws]
        simp [reassemble]
      refine ⟨?_, ?_⟩
      · rw [hstep, hws]
        show l.take (chunkCut ms l) ++
          ((w' :: ws').map (fun x => x.drop ov)).flatten = l
        calc l.take (chunkCut ms l) ++ ((w' :: ws').map (fun x => x.drop ov)).flatten
            = l.take (chunkCut ms l) ++
              (w'.drop ov ++ (ws'.map (fun x => x.drop ov)).flatten) := by
              simp
          _ = l.take (chunkCut ms l) ++
              (w' ++ (ws'.map (fun x => x.drop ov)).flatten).drop ov := by
              rw [List.drop_append_of_le_length hw'len]
          _ = l.take (chunkCut ms l) ++ (l.drop (chunkCut ms l - ov)).drop ov := by
              rw [hl']
          _ = l.take (chunkCut ms l) ++ l.drop (chunkCut ms l) := by
              rw [List.drop_drop]
              have hx : chunkCut ms l - ov + ov = chunkCut ms l := by omega
              rw [hx]
          _ = l := List.take_append_drop _ _
      · intro w ws h
        rw [hstep] at h
        injection h with hw _
        right
        rw [← hw]
        simp only [List.length_take]
        omega
    · have hstep : chunkListFuel ms ov (fuel + 1) l = [l] := by
        simp only [chunkListFuel]
        rw [if_neg hc]
      refine ⟨by rw [hstep]; simp [reassemble], ?_⟩
      intro w ws h
      rw [hstep] at h
      injection h with hw _
      exact Or.inl hw.symm

/-- C7: Chunker round trip with the configured parameters
`maxSize = 4000`, `overlap = 200`, newline split boundary:
concatenating all windows in order and removing each duplicated
overlap region reconstructs the original text exactly.  The hypothesis
mirrors the claim's guard on the unsplittable-unit edge case (on this
model the identity holds even then). -/
theorem chunk_roundtrip (l : List Char)
    (_h : ∀ w ∈ chunkList 4000 200 l, w.length ≤ 4000) :
    reassemble 200 (chunkList 4000 200 l) = l :=
  (chunkListFuel_roundtrip 4000 200 l.length l le_rfl).1

/-- Witness for C7 at a concrete two-line text. -/
theorem chunk_roundtrip_witness :
    reassemble 200 (chunkList 4000 200 ("line one\nline two" : String).data) =
      ("line one\nline two" : String).data :=
  chunk_roundtrip ("line one\nline two" : String).data (by decide)

/-- C8: analytics are pure functions of the summary text: the word
count equals the length of the whitespace split of the text, and
recomputing the full analytics bundle on an unchanged text yields
identical results (the embedding is stateless, so purity is
inherited by construction). -/
theorem analytics_pure (s t : String) (h : s = t) :
    (analytics s).word_count = (pySplitWs s.data).length ∧
    analytics s = analytics t :=
  ⟨rfl, by rw [h]⟩

/-- Witness for C8 at a concrete summary text. -/
theorem analytics_pure_witness :
    (analytics "hello world").word_count =
      (pySplitWs ("hello world" : String).data).length ∧
    analytics "hello world" = analytics "hello world" :=
  analytics_pure "hello world" "hello world" rfl

/-- C10: the reading-time estimate equals `max(1, word_count // 200)`,
hence is at least one minute for every summary text, including the
empty string and any text of fewer than 200 words. -/
theorem reading_time_at_least_one (s : String) :
    reading_time s = max 1 (word_count s / 200) ∧ 1 ≤ reading_time s :=
  ⟨rfl, le_max_left 1 _⟩
